import Mathlib

/-!
# Verification of the apparel-mockup designer core

A shallow embedding, in Lean 4, of the texture-placement mapping, the
gesture-to-transform adapter, the editor-page transform handlers and the
persistence touchpoint of the t-shirt designer repository.

JavaScript numbers are modelled exactly: the texture mapping, the editor
handlers and the persistence code only add, divide by constants, clamp with
min/max and round, so those are embedded over the rationals.  The pointer
gesture adapter genuinely computes square roots and arctangents
(Math.hypot, Math.atan2), so that part is embedded over the reals.
Math.round is floor (x + 1/2), matching the half-up rounding of JS.
-/

namespace TShirt

/-! ## Texture placement mapping (the 3D model component file)

The model component file contains several near-duplicate variants of the
2D-transform-to-UV mapping.  Each variant reads a `TextureTransform`
(position in pixels, scale in percent, rotation in degrees) and mutates a
texture object (repeat, offset, center).  The texture rotation field is
`degrees * pi / 180`, a transcendental value not needed by any claim here,
so the embedded `Texture` record carries repeat, offset and center only.
The four per-region branches of each variant are textually identical up to
the region name, so each variant is embedded once. -/

structure TextureTransform where
  posX : ℚ
  posY : ℚ
  scale : ℚ
  rotationDeg : ℚ
deriving DecidableEq

structure Texture where
  repeatX : ℚ
  repeatY : ℚ
  offsetX : ℚ
  offsetY : ℚ
  centerX : ℚ
  centerY : ℚ
deriving DecidableEq

/-- A freshly constructed texture object: repeat (1,1), offset (0,0),
center (0,0) (the renderer defaults). -/
def initTexture : Texture := ⟨1, 1, 0, 0, 0, 0⟩

/-- First model variant, transform block (lines 189-203 of the model file):
`scaleX = scaleY = Math.max(0.05, scale / 120)`,
`offsetX = position.x / 1500`, `offsetY = -position.y / 1500`,
`center.set(0.5, 0.5)`. -/
def setFromTransformV1 (t : TextureTransform) (tex : Texture) : Texture :=
  { tex with
    centerX := 1/2, centerY := 1/2
    repeatX := max (1/20) (t.scale / 120), repeatY := max (1/20) (t.scale / 120)
    offsetX := t.posX / 1500, offsetY := -t.posY / 1500 }

/-- First model variant, the unconditional block that follows the transform
block (lines 205-208): `texture.repeat.set(0.5, 0.5)`,
`texture.offset.set(0, 0)` ("force visible texture settings"). -/
def forceVisibleV1 (tex : Texture) : Texture :=
  { tex with repeatX := 1/2, repeatY := 1/2, offsetX := 0, offsetY := 0 }

/-- First model variant, full texture set-up for a region with a texture:
the transform block runs only when a transform is present, then the
constant override always runs. -/
def applyTransformV1 (t? : Option TextureTransform) (tex : Texture) : Texture :=
  forceVisibleV1 (match t? with
    | some t => setFromTransformV1 t tex
    | none => tex)

/-- Separate-mesh model variant (lines 744-758):
`scaleX = scaleY = Math.max(0.1, scale / 220)`,
`offsetX = position.x / 800`, `offsetY = -position.y / 800`;
without a transform the defaults repeat (1,1), offset (0,0) are set.
`center.set(0.5, 0.5)` in both branches. -/
def applyTransformV220 (t? : Option TextureTransform) (tex : Texture) : Texture :=
  match t? with
  | some t =>
    { tex with
      centerX := 1/2, centerY := 1/2
      repeatX := max (1/10) (t.scale / 220), repeatY := max (1/10) (t.scale / 220)
      offsetX := t.posX / 800, offsetY := -t.posY / 800 }
  | none =>
    { tex with
      repeatX := 1, repeatY := 1
      offsetX := 0, offsetY := 0
      centerX := 1/2, centerY := 1/2 }

/-- Second model variant (lines 1385-1395):
`scaleX = scaleY = scale / 100` (no floor),
`offsetX = position.x / 100`, `offsetY = position.y / 100`
(note: no sign inversion on Y in this variant). -/
def applyTransformV100 (t? : Option TextureTransform) (tex : Texture) : Texture :=
  match t? with
  | some t =>
    { tex with
      centerX := 1/2, centerY := 1/2
      repeatX := t.scale / 100, repeatY := t.scale / 100
      offsetX := t.posX / 100, offsetY := t.posY / 100 }
  | none => tex

/-! ## Region materials and failure handling (the 3D model component file) -/

structure GarmentColors where
  body : String
  neck : String
  neckBorder : String
  cuff : String
  buttons : String
  ribbedHem : String
deriving DecidableEq

/-- A mesh material: an optional explicit color (none means the renderer
default), an optional texture map, and the transparency flag. -/
structure Material where
  color : Option String
  map : Option Texture
  transparent : Bool
deriving DecidableEq

inductive LogEntry where
  | info (msg : String)
  | warn (msg : String)
  | error (msg : String)
deriving DecidableEq

/-- Outcome of the texture-application attempt inside the try block:
either it completes, or it throws and control reaches the catch block. -/
inductive LoadOutcome where
  | ok
  | failed (err : String)
deriving DecidableEq

/-- `materials.body`: `createMaterial(colors.body, undefined)` - a flat
base-color material with no texture map. -/
def materialsBody (colors : GarmentColors) : Material :=
  ⟨some colors.body, none, false⟩

/-- First model variant, per-region material application (the front branch
is lines 169-232; the back and sleeve branches are identical up to the
region name).  With no texture url for the region, the else branch assigns
`materials.body`.  With a url, the try block loads and configures the
texture (via `applyTransformV1`) and builds the decal material; if the try
block throws, the catch block logs one warning and assigns
`materials.body`.  Debug success logs are elided; the single warning of the
catch block is kept.  The returned list records the logs emitted by the
call; no second load attempt appears anywhere in the function. -/
def applyRegionV1 (region : String) (textureUrl : Option String)
    (outcome : LoadOutcome) (transform : Option TextureTransform)
    (colors : GarmentColors) : Material × List LogEntry :=
  match textureUrl with
  | none => (materialsBody colors, [])
  | some _ =>
    match outcome with
    | .ok => (⟨none, some (applyTransformV1 transform initTexture), true⟩, [])
    | .failed err =>
      (materialsBody colors,
        [LogEntry.warn ("Failed to apply " ++ region ++ " texture: " ++ err)])

/-- JS `String.prototype.includes`, used by the separate-mesh variant to
dispatch mesh names to garment parts. -/
def jsIncludes (s pat : String) : Bool := decide (List.IsInfix pat.toList s.toList)

/-- Separate-mesh model variant, no-texture branch (lines 770-786): the
mesh name chooses the flat base color; region meshes (front, back,
leftsleeve, rightsleeve) match none of the substrings and fall through to
the body color. -/
def v220BaseMaterial (meshName : String) (colors : GarmentColors) : Material :=
  if jsIncludes meshName "neck" && !jsIncludes meshName "border" then
    ⟨some colors.neck, none, false⟩
  else if jsIncludes meshName "neck" && jsIncludes meshName "border" then
    ⟨some colors.neckBorder, none, false⟩
  else if jsIncludes meshName "cuff" then ⟨some colors.cuff, none, false⟩
  else if jsIncludes meshName "button" then ⟨some colors.buttons, none, false⟩
  else if jsIncludes meshName "ribbed" || jsIncludes meshName "hem" then
    ⟨some colors.ribbedHem, none, false⟩
  else ⟨some colors.body, none, false⟩

/-! ## Editor-page transform handlers (third document of MiddleSection.tsx)

Per-container transform record and the slider / handle callbacks. -/

structure CropTransform where
  x : ℚ
  y : ℚ
  scale : ℚ
  rotation : ℚ
  cropLeft : ℚ
  cropRight : ℚ
  cropTop : ℚ
  cropBottom : ℚ
deriving DecidableEq

/-- The front container default: `{x: 0, y: 0, scale: 60, rotation: 0,
cropLeft: 0, cropRight: 0, cropTop: 0, cropBottom: 0}`. -/
def defaultFrontCrop : CropTransform := ⟨0, 0, 60, 0, 0, 0, 0, 0⟩

/-- JS `Math.round`: half rounds up. -/
def jsRound (q : ℚ) : ℚ := ((⌊q + 1/2⌋ : ℤ) : ℚ)

/-- `handleScaleChange`: `scale: Math.max(20, Math.min(300, scale))`. -/
def handleScaleChange (c : CropTransform) (s : ℚ) : CropTransform :=
  { c with scale := max 20 (min 300 s) }

/-- `handleImageScaleChange`: `Math.max(20, Math.min(300, scale))`. -/
def handleImageScaleChange (s : ℚ) : ℚ := max 20 (min 300 s)

/-- `handleImageRotationChange`:
`Math.max(-180, Math.min(180, rotation))`. -/
def handleImageRotationChange (r : ℚ) : ℚ := max (-180) (min 180 r)

inductive CropEdge where
  | left
  | right
  | top
  | bottom
deriving DecidableEq

def CropTransform.edgeValue (c : CropTransform) : CropEdge → ℚ
  | .left => c.cropLeft
  | .right => c.cropRight
  | .top => c.cropTop
  | .bottom => c.cropBottom

def CropTransform.setEdge (c : CropTransform) : CropEdge → ℚ → CropTransform
  | .left, v => { c with cropLeft := v }
  | .right, v => { c with cropRight := v }
  | .top, v => { c with cropTop := v }
  | .bottom, v => { c with cropBottom := v }

/-- `handleCropChange`: sets one edge to
`Math.max(0, Math.min(200, cropValue))`. -/
def handleCropChange (c : CropTransform) (e : CropEdge) (v : ℚ) : CropTransform :=
  c.setEdge e (max 0 (min 200 v))

/-- `handleEdgeCrop`: `cropChange = -delta * 0.5`;
`newCrop = Math.max(0, Math.min(200, currentCrop + cropChange))`;
the edge is set to `Math.round(newCrop)`.  Each edge is clamped on its
own; no other edge is read or written. -/
def handleEdgeCrop (c : CropTransform) (e : CropEdge) (delta : ℚ) : CropTransform :=
  let currentCrop := c.edgeValue e
  let cropChange := -delta * (1/2)
  let newCrop := max 0 (min 200 (currentCrop + cropChange))
  c.setEdge e (jsRound newCrop)

/-- A sequence of edge-crop gestures applied in order. -/
def applyEdgeCrops (c : CropTransform) (l : List (CropEdge × ℚ)) : CropTransform :=
  l.foldl (fun acc g => handleEdgeCrop acc g.1 g.2) c

/-! ## Persistence touchpoint (home page document of the unnamed page file) -/

structure DesignColors where
  body : String
  neck : String
  neckBorder : String
  cuff : String
  buttons : String
  ribbedHem : String
deriving DecidableEq

/-- The initial color state: every part `#ffffff`. -/
def defaultColors : DesignColors :=
  ⟨"#ffffff", "#ffffff", "#ffffff", "#ffffff", "#ffffff", "#ffffff"⟩

/-- What `localStorage.getItem` followed by `JSON.parse` can yield for the
`tshirtDesign` key: no stored value, a stored value on which `JSON.parse`
throws, or a parsed object whose `colors` field may be absent. -/
inductive StoredSnapshot where
  | absent
  | corrupt (raw : String)
  | parsed (saved : Option DesignColors)
deriving DecidableEq

/-- The load effect on mount (lines 999-1013 of the home page document):
when nothing is stored, nothing happens; when `JSON.parse` throws, the
catch block logs one error and the state is untouched; when the parsed
object has a `colors` field, `setColors` installs it, otherwise nothing
happens.  The result pairs the color state after the effect with the logs
it emitted. -/
def loadSavedDesign (s : StoredSnapshot) (current : DesignColors) :
    DesignColors × List LogEntry :=
  match s with
  | .absent => (current, [])
  | .corrupt _ => (current, [LogEntry.error "Error loading saved design:"])
  | .parsed none => (current, [])
  | .parsed (some saved) => (saved, [])

/-- Modelled from the spec: the save side of the persistence collaborator
("a single flat snapshot {colors} read/written to a local key-value store
on page load/save").  No save handler exists in the source tree (the Save
Design button has no click handler), so the write is taken from the spec:
it stores the flat color snapshot under the single key. -/
def saveDesign (c : DesignColors) : StoredSnapshot := .parsed (some c)

/-! ## Gesture-to-transform adapter (second document of MiddleSection.tsx)

The pointer-capture gesture widget: `startPointer`, the `onMove` switch
(move / corner-scale / rotate / corner-crop) and `onUp`.  These compute
with `Math.hypot` and `Math.atan2`, so this part is embedded over ℝ. -/

noncomputable section

/-- JS `Math.atan2` on real arguments (the NaN and signed-zero cases of
floats do not arise in the embedding). -/
def jsAtan2 (y x : ℝ) : ℝ :=
  if 0 < x then Real.arctan (y / x)
  else if x < 0 then
    (if 0 ≤ y then Real.arctan (y / x) + Real.pi
     else Real.arctan (y / x) - Real.pi)
  else
    (if 0 < y then Real.pi / 2
     else if y < 0 then -(Real.pi / 2)
     else 0)

/-- JS `Math.hypot` on two arguments. -/
def jsHypot (a b : ℝ) : ℝ := Real.sqrt (a ^ 2 + b ^ 2)

/-- JS `Math.round` over ℝ: half rounds up. -/
def jsRoundR (v : ℝ) : ℝ := ((⌊v + 1/2⌋ : ℤ) : ℝ)

inductive GestureMode where
  | move
  | scaleTL
  | scaleTR
  | scaleBL
  | scaleBR
  | rotate
  | cropTL
  | cropTR
  | cropBL
  | cropBR
deriving DecidableEq

structure CropRect where
  x : ℝ
  y : ℝ
  width : ℝ
  height : ℝ

/-- The `pointerState` ref.  `pointerId` is `none` when no pointer is
captured (the JS `undefined`). -/
structure PointerState where
  active : Bool
  pointerId : Option ℕ
  mode : GestureMode
  startClientX : ℝ
  startClientY : ℝ
  startPosX : ℝ
  startPosY : ℝ
  startScale : ℝ
  startRotation : ℝ
  startCrop : CropRect

structure PointerEventData where
  pointerId : ℕ
  clientX : ℝ
  clientY : ℝ

/-- The wrapper bounding rect; the gesture center is its middle. -/
structure WrapperRect where
  left : ℝ
  top : ℝ
  width : ℝ
  height : ℝ

def centerX (r : WrapperRect) : ℝ := r.left + r.width / 2

def centerY (r : WrapperRect) : ℝ := r.top + r.height / 2

/-- `onMove`, move case: `Math.round(startPos + (client - startClient))`
on each axis. -/
def moveNewPos (ps : PointerState) (ev : PointerEventData) : ℝ × ℝ :=
  (jsRoundR (ps.startPosX + (ev.clientX - ps.startClientX)),
   jsRoundR (ps.startPosY + (ev.clientY - ps.startClientY)))

/-- `Math.hypot(ps.startClientX - cx, ps.startClientY - cy)`. -/
def startDistFromCenter (ps : PointerState) (r : WrapperRect) : ℝ :=
  jsHypot (ps.startClientX - centerX r) (ps.startClientY - centerY r)

/-- `Math.hypot(ev.clientX - cx, ev.clientY - cy)`. -/
def curDistFromCenter (ev : PointerEventData) (r : WrapperRect) : ℝ :=
  jsHypot (ev.clientX - centerX r) (ev.clientY - centerY r)

/-- `onMove`, corner-scale case:
`ratio = curDist / Math.max(1, startDist)`;
`newScale = Math.max(0.02, ps.startScale * ratio)`. -/
def scaleNewScale (ps : PointerState) (ev : PointerEventData) (r : WrapperRect) : ℝ :=
  max 0.02 (ps.startScale * (curDistFromCenter ev r / max 1 (startDistFromCenter ps r)))

/-- `onMove`, rotate case, the angular delta in degrees:
`(atan2(ev - c) - atan2(start - c)) * (180 / Math.PI)`. -/
def deltaAngleDeg (ps : PointerState) (ev : PointerEventData) (r : WrapperRect) : ℝ :=
  (jsAtan2 (ev.clientY - centerY r) (ev.clientX - centerX r)
      - jsAtan2 (ps.startClientY - centerY r) (ps.startClientX - centerX r))
    * (180 / Real.pi)

/-- `onMove`, rotate case: `newRotation = ps.startRotation + deltaAngle`;
no clamp is applied. -/
def rotateNewRotation (ps : PointerState) (ev : PointerEventData) (r : WrapperRect) : ℝ :=
  ps.startRotation + deltaAngleDeg ps ev r

/-- The clamp helper of the crop case:
`clamp = (v, a = 0, b = base) => Math.max(a, Math.min(b, v))`. -/
def clampR (base v : ℝ) : ℝ := max 0 (min base v)

/-- `onMove`, corner-crop case (lines 503-541): the switch adjusts the
crop rect per corner with a 10px minimum, then x and y are clamped to
[0, base], width and height are re-clamped against the remaining space,
and all four components are rounded before being scheduled. -/
def cropNewCrop (ps : PointerState) (ev : PointerEventData) (base : ℝ) : CropRect :=
  let rawDX := (ev.clientX - ps.startClientX) / ps.startScale
  let rawDY := (ev.clientY - ps.startClientY) / ps.startScale
  let sc := ps.startCrop
  let minSize : ℝ := 10
  let c1 : CropRect :=
    match ps.mode with
    | .cropTL =>
      let nx := min (sc.x + sc.width - minSize) (sc.x + rawDX)
      let ny := min (sc.y + sc.height - minSize) (sc.y + rawDY)
      ⟨nx, ny, sc.width - (nx - sc.x), sc.height - (ny - sc.y)⟩
    | .cropTR =>
      let ny := min (sc.y + sc.height - minSize) (sc.y + rawDY)
      ⟨sc.x, ny, max minSize (sc.width + rawDX), sc.height - (ny - sc.y)⟩
    | .cropBL =>
      let nx := min (sc.x + sc.width - minSize) (sc.x + rawDX)
      ⟨nx, sc.y, sc.width - (nx - sc.x), max minSize (sc.height + rawDY)⟩
    | .cropBR =>
      ⟨sc.x, sc.y, max minSize (sc.width + rawDX), max minSize (sc.height + rawDY)⟩
    | _ => sc
  let cx := clampR base c1.x
  let cy := clampR base c1.y
  ⟨jsRoundR cx, jsRoundR cy,
   jsRoundR (max minSize (min (base - cx) c1.width)),
   jsRoundR (max minSize (min (base - cy) c1.height))⟩

/-- The partial transform scheduled by one `onMove` dispatch. -/
inductive TransformUpdate where
  | position (x y : ℝ)
  | scale (s : ℝ)
  | rotation (deg : ℝ)
  | crop (c : CropRect)

/-- The `onMove` switch on `ps.mode`. -/
def onMoveUpdate (ps : PointerState) (ev : PointerEventData) (r : WrapperRect)
    (base : ℝ) : TransformUpdate :=
  match ps.mode with
  | .move => .position (moveNewPos ps ev).1 (moveNewPos ps ev).2
  | .scaleTL | .scaleTR | .scaleBL | .scaleBR => .scale (scaleNewScale ps ev r)
  | .rotate => .rotation (rotateNewRotation ps ev r)
  | .cropTL | .cropTR | .cropBL | .cropBR => .crop (cropNewCrop ps ev base)

/-- The guards at the head of `onMove`: return early unless the gesture is
active and the event comes from the captured pointer. -/
def onMoveGuarded (ps : PointerState) (ev : PointerEventData) (r : WrapperRect)
    (base : ℝ) : Option TransformUpdate :=
  if ps.active = false then none
  else
    match ps.pointerId with
    | some pid =>
      if ev.pointerId ≠ pid then none else some (onMoveUpdate ps ev r base)
    | none => some (onMoveUpdate ps ev r base)

/-- The transform fields of the section image that the gestures touch,
plus the `locked` flag. -/
structure PlacedImageState where
  posX : ℝ
  posY : ℝ
  scale : ℝ
  rotation : ℝ
  cropData : Option CropRect
  locked : Bool

/-- `startPointer` (lines 435-461): when `sectionImage.locked` the handler
returns before touching the pointer state, so no gesture starts; otherwise
the pointer state is initialized from the image and activated. -/
def startPointer (img : PlacedImageState) (ev : PointerEventData)
    (mode : GestureMode) (ps : PointerState) (base : ℝ) : PointerState :=
  if img.locked then ps
  else
    { active := true
      pointerId := some ev.pointerId
      mode := mode
      startClientX := ev.clientX
      startClientY := ev.clientY
      startPosX := img.posX
      startPosY := img.posY
      startScale := img.scale
      startRotation := img.rotation
      startCrop := img.cropData.getD ⟨0, 0, base, base⟩ }

/-- The commit of a scheduled partial onto the image state
(`onImageTransform` merging the partial into the placed image). -/
def applyUpdate (img : PlacedImageState) : TransformUpdate → PlacedImageState
  | .position x y => { img with posX := x, posY := y }
  | .scale s => { img with scale := s }
  | .rotation deg => { img with rotation := deg }
  | .crop c => { img with cropData := some c }

/-- `onUp`: release capture and deactivate the pointer state. -/
def onUp (ps : PointerState) : PointerState :=
  { ps with active := false, pointerId := none }

/-- One raw pointer event delivered to the widget. -/
inductive PointerGestureEvent where
  | down (mode : GestureMode) (ev : PointerEventData)
  | moved (ev : PointerEventData)
  | up (ev : PointerEventData)

/-- One step of the widget: pointer-down runs `startPointer`, pointer-move
runs the guarded `onMove` and commits its update, pointer-up runs `onUp`. -/
def gestureStep (r : WrapperRect) (base : ℝ) :
    PointerState × PlacedImageState → PointerGestureEvent →
    PointerState × PlacedImageState
  | (ps, img), .down mode ev => (startPointer img ev mode ps base, img)
  | (ps, img), .moved ev =>
    match onMoveGuarded ps ev r base with
    | some u => (ps, applyUpdate img u)
    | none => (ps, img)
  | (ps, img), .up _ => (onUp ps, img)

def runGestures (r : WrapperRect) (base : ℝ) (evs : List PointerGestureEvent)
    (s : PointerState × PlacedImageState) : PointerState × PlacedImageState :=
  evs.foldl (gestureStep r base) s

/-- The initial `pointerState` ref value: `active: false`, no captured
pointer. -/
def initialPointerState : PointerState :=
  ⟨false, none, .move, 0, 0, 0, 0, 1, 0, ⟨0, 0, 0, 0⟩⟩

/-! ## Frame-coalesced update delivery (`scheduleTransformUpdate`) -/

/-- `Partial<PlacedImage>` as scheduled by the gesture handlers: only the
present fields override on merge. -/
structure PartialUpdate where
  position? : Option (ℝ × ℝ)
  scale? : Option ℝ
  rotation? : Option ℝ
  cropData? : Option CropRect

/-- The JS spread `{...old, ...new}`: fields present in the new partial
win. -/
def mergePartial (old new : PartialUpdate) : PartialUpdate :=
  ⟨new.position?.orElse fun _ => old.position?,
   new.scale?.orElse fun _ => old.scale?,
   new.rotation?.orElse fun _ => old.rotation?,
   new.cropData?.orElse fun _ => old.cropData?⟩

/-- The scheduler state: `pendingTransformRef`, whether an animation frame
callback is outstanding (`rafRef`), and the list of updates committed to
`onImageTransform` so far, in order. -/
structure SchedState where
  pending : Option PartialUpdate
  rafScheduled : Bool
  commits : List PartialUpdate

/-- `scheduleTransformUpdate` (lines 422-433): merge the partial into the
pending ref; if no frame is outstanding, request one. -/
def scheduleTransformUpdate (p : PartialUpdate) (s : SchedState) : SchedState :=
  { pending := some (match s.pending with
      | some q => mergePartial q p
      | none => p)
    rafScheduled := true
    commits := s.commits }

/-- The animation-frame callback firing: when a frame is outstanding, the
pending partial (if any) is committed, then both refs are cleared.  When
no frame was requested nothing runs. -/
def animationFrame (s : SchedState) : SchedState :=
  if s.rafScheduled then
    { pending := none
      rafScheduled := false
      commits := s.commits ++ (match s.pending with
        | some p => [p]
        | none => []) }
  else s

inductive SchedEvent where
  | schedule (p : PartialUpdate)
  | frame

def schedStep (s : SchedState) : SchedEvent → SchedState
  | .schedule p => scheduleTransformUpdate p s
  | .frame => animationFrame s

def runSched (evs : List SchedEvent) (s : SchedState) : SchedState :=
  evs.foldl schedStep s

def initialSched : SchedState := ⟨none, false, []⟩

/-- Merge of optional partials, the unit being the absent partial. -/
def mergeO : Option PartialUpdate → Option PartialUpdate → Option PartialUpdate
  | none, b => b
  | some a, none => some a
  | some a, some b => some (mergePartial a b)

/-- The left-to-right merge of a list of partials. -/
def mergeList (l : List PartialUpdate) : Option PartialUpdate :=
  l.foldl (fun acc p => mergeO acc (some p)) none

/-- The partials scheduled by a sequence of events, in order. -/
def scheduledOf : List SchedEvent → List PartialUpdate
  | [] => []
  | .schedule p :: rest => p :: scheduledOf rest
  | .frame :: rest => scheduledOf rest

end

/-! ## Theorems -/

/-- Claim C1, counterexample.  The claim states that every variant of the
mapping emits `offset.y = -position.y / positionDivisor`, so a positive
`position.y` always yields a negative `offset.y`.  In the second model
variant (the divisor-100 one, lines 1393-1395) the sign is not inverted:
with `position = (0, 100)` the texture offset written is `(0, 1)`, and
`offset.y = 1 > 0` although `position.y = 100 > 0`. -/
theorem c1_counterexample :
    (applyTransformV100 (some ⟨0, 100, 100, 0⟩) initTexture).offsetY = 1 ∧
      0 < (applyTransformV100 (some ⟨0, 100, 100, 0⟩) initTexture).offsetY := by
  constructor <;> norm_num [applyTransformV100, initTexture]

/-- Claim C1, amended.  The divisor-1500 and divisor-800 variants do emit
`offset = (position.x / d, -position.y / d)`, so there a positive
`position.y` yields a negative `offset.y` and vice versa; the divisor-100
variant emits `offset = (position.x / 100, position.y / 100)` with no sign
inversion; and in the first model variant the computed offset is
overwritten by the constant `(0, 0)` before the material is built. -/
theorem c1_offset_y_sign (t : TextureTransform) :
    (setFromTransformV1 t initTexture).offsetX = t.posX / 1500 ∧
    (setFromTransformV1 t initTexture).offsetY = -t.posY / 1500 ∧
    (0 < t.posY → (setFromTransformV1 t initTexture).offsetY < 0) ∧
    (t.posY < 0 → 0 < (setFromTransformV1 t initTexture).offsetY) ∧
    (applyTransformV220 (some t) initTexture).offsetX = t.posX / 800 ∧
    (applyTransformV220 (some t) initTexture).offsetY = -t.posY / 800 ∧
    (0 < t.posY → (applyTransformV220 (some t) initTexture).offsetY < 0) ∧
    (t.posY < 0 → 0 < (applyTransformV220 (some t) initTexture).offsetY) ∧
    (applyTransformV100 (some t) initTexture).offsetY = t.posY / 100 ∧
    (0 < t.posY → 0 < (applyTransformV100 (some t) initTexture).offsetY) ∧
    (applyTransformV1 (some t) initTexture).offsetX = 0 ∧
    (applyTransformV1 (some t) initTexture).offsetY = 0 := by
  refine ⟨rfl, rfl, ?_, ?_, rfl, rfl, ?_, ?_, rfl, ?_, rfl, rfl⟩
  · intro h
    have h1 : (0 : ℚ) < t.posY / 1500 := div_pos h (by norm_num)
    simp only [setFromTransformV1, neg_div]
    linarith
  · intro h
    have h1 : t.posY / 1500 < 0 := div_neg_of_neg_of_pos h (by norm_num)
    simp only [setFromTransformV1, neg_div]
    linarith
  · intro h
    have h1 : (0 : ℚ) < t.posY / 800 := div_pos h (by norm_num)
    simp only [applyTransformV220, neg_div]
    linarith
  · intro h
    have h1 : t.posY / 800 < 0 := div_neg_of_neg_of_pos h (by norm_num)
    simp only [applyTransformV220, neg_div]
    linarith
  · intro h
    simpa only [applyTransformV100] using div_pos h (by norm_num)

/-- Witness for `c1_offset_y_sign` at the transform
`position = (0, 5), scale = 100, rotation = 0`. -/
theorem c1_offset_y_sign_witness :
    (setFromTransformV1 ⟨0, 5, 100, 0⟩ initTexture).offsetY < 0 ∧
      0 < (applyTransformV100 (some ⟨0, 5, 100, 0⟩) initTexture).offsetY :=
  ⟨(c1_offset_y_sign ⟨0, 5, 100, 0⟩).2.2.1 (by norm_num),
   (c1_offset_y_sign ⟨0, 5, 100, 0⟩).2.2.2.2.2.2.2.2.2.1 (by norm_num)⟩

/-- Claim C2, counterexample.  The claim states that in every variant the
repeat written to the texture is `max(minRepeat, scale / scaleDivisor)`
and is never subsequently replaced by a constant.  In the first model
variant the computed repeat `max(0.05, scale / 120)` is overwritten by the
constant `0.5` (the "force visible texture settings" block, lines
205-208): at the valid scale 300 the formula gives `2.5` but the texture
ends up with repeat `0.5`. -/
theorem c2_counterexample :
    (applyTransformV1 (some ⟨0, 0, 300, 0⟩) initTexture).repeatX = 1/2 ∧
      max ((1 : ℚ)/20) (300/120) = 5/2 ∧ ((1 : ℚ)/2) ≠ 5/2 := by
  refine ⟨?_, ?_, ?_⟩
  · norm_num [applyTransformV1, setFromTransformV1, forceVisibleV1, initTexture]
  · rw [max_eq_right (by norm_num : (1 : ℚ)/20 ≤ 300/120)]; norm_num
  · norm_num

/-- Claim C2, amended.  In the divisor-120 and divisor-220 variants the
computed repeat is `max(minRepeat, scale / divisor)`, equal on both axes
and positive; in the divisor-100 variant the repeat is `scale / 100` on
both axes with no explicit floor (positive whenever `scale ≥ 20`); but in
the first model variant the computed repeat is subsequently replaced by
the constant `(0.5, 0.5)`. -/
theorem c2_repeat_factors (t : TextureTransform) :
    (setFromTransformV1 t initTexture).repeatX = max (1/20) (t.scale / 120) ∧
    (setFromTransformV1 t initTexture).repeatY =
      (setFromTransformV1 t initTexture).repeatX ∧
    0 < (setFromTransformV1 t initTexture).repeatX ∧
    (applyTransformV220 (some t) initTexture).repeatX =
      max (1/10) (t.scale / 220) ∧
    (applyTransformV220 (some t) initTexture).repeatY =
      (applyTransformV220 (some t) initTexture).repeatX ∧
    0 < (applyTransformV220 (some t) initTexture).repeatX ∧
    (applyTransformV100 (some t) initTexture).repeatX = t.scale / 100 ∧
    (applyTransformV100 (some t) initTexture).repeatY =
      (applyTransformV100 (some t) initTexture).repeatX ∧
    (20 ≤ t.scale → 0 < (applyTransformV100 (some t) initTexture).repeatX) ∧
    (applyTransformV1 (some t) initTexture).repeatX = 1/2 ∧
    (applyTransformV1 (some t) initTexture).repeatY = 1/2 := by
  refine ⟨rfl, rfl, ?_, rfl, rfl, ?_, rfl, rfl, ?_, rfl, rfl⟩
  · exact lt_max_iff.mpr (Or.inl (by norm_num))
  · exact lt_max_iff.mpr (Or.inl (by norm_num))
  · intro h
    simpa only [applyTransformV100] using
      div_pos (lt_of_lt_of_le (by norm_num) h) (by norm_num)

/-- Witness for `c2_repeat_factors` at scale 100. -/
theorem c2_repeat_factors_witness :
    0 < (setFromTransformV1 ⟨0, 0, 100, 0⟩ initTexture).repeatX ∧
      0 < (applyTransformV100 (some ⟨0, 0, 100, 0⟩) initTexture).repeatX :=
  ⟨(c2_repeat_factors ⟨0, 0, 100, 0⟩).2.2.1,
   (c2_repeat_factors ⟨0, 0, 100, 0⟩).2.2.2.2.2.2.2.2.1 (by norm_num)⟩

/-- The value an edge-crop gesture writes - round of a [0, 200] clamp -
always lies in [0, 200]. -/
theorem jsRound_clamped_mem (q : ℚ) :
    0 ≤ jsRound (max 0 (min 200 q)) ∧ jsRound (max 0 (min 200 q)) ≤ 200 := by
  have h0 : (0 : ℚ) ≤ max 0 (min 200 q) := le_max_left _ _
  have h200 : max 0 (min 200 q) ≤ 200 :=
    max_le (by norm_num) (min_le_left _ _)
  unfold jsRound
  refine ⟨?_, ?_⟩
  · exact_mod_cast Int.le_floor.mpr (by push_cast; linarith)
  · have hfl : ((⌊max 0 (min 200 q) + 1/2⌋ : ℤ) : ℚ) ≤ max 0 (min 200 q) + 1/2 :=
      Int.floor_le _
    have h2 : max 0 (min 200 q) + 1/2 < (201 : ℚ) := by linarith
    have hlt : (⌊max 0 (min 200 q) + 1/2⌋ : ℤ) < 201 := by
      exact_mod_cast lt_of_le_of_lt hfl h2
    exact_mod_cast (by omega : (⌊max 0 (min 200 q) + 1/2⌋ : ℤ) ≤ 200)

/-- Claim C4, counterexample.  The claim states that after any sequence of
edge-crop gestures opposing edges never cross: `cropLeft + cropRight ≤
baseSize` with the minimum visible size 10px.  `handleEdgeCrop` clamps
each edge to [0, 200] on its own and never reads the opposite edge: from
the default front state, one left-edge gesture with delta -400 and one
right-edge gesture with delta -400 drive `cropLeft` and `cropRight` both
to 200, so their sum is 400, above the 200 crop range (and above the
200px default base of the sibling pointer-crop widget), leaving no
visible width at all. -/
theorem c4_counterexample :
    (applyEdgeCrops defaultFrontCrop
        [(CropEdge.left, -400), (CropEdge.right, -400)]).cropLeft = 200 ∧
    (applyEdgeCrops defaultFrontCrop
        [(CropEdge.left, -400), (CropEdge.right, -400)]).cropRight = 200 ∧
    ¬ ((applyEdgeCrops defaultFrontCrop
        [(CropEdge.left, -400), (CropEdge.right, -400)]).cropLeft +
       (applyEdgeCrops defaultFrontCrop
        [(CropEdge.left, -400), (CropEdge.right, -400)]).cropRight ≤ 200) := by
  refine ⟨?_, ?_, ?_⟩ <;>
    norm_num [applyEdgeCrops, handleEdgeCrop, CropTransform.edgeValue,
      CropTransform.setEdge, defaultFrontCrop, jsRound]

/-- Claim C4, amended.  After any sequence of edge-crop gestures starting
from a state whose edges lie in [0, 200], every edge stays within
[0, 200]; but opposing edges are not mutually constrained (their sum can
reach 400) and no minimum visible size is enforced by the edge-crop
handler. -/
theorem c4_edge_crops_bounded (c : CropTransform)
    (hl : 0 ≤ c.cropLeft ∧ c.cropLeft ≤ 200)
    (hr : 0 ≤ c.cropRight ∧ c.cropRight ≤ 200)
    (ht : 0 ≤ c.cropTop ∧ c.cropTop ≤ 200)
    (hb : 0 ≤ c.cropBottom ∧ c.cropBottom ≤ 200)
    (l : List (CropEdge × ℚ)) :
    (0 ≤ (applyEdgeCrops c l).cropLeft ∧ (applyEdgeCrops c l).cropLeft ≤ 200) ∧
    (0 ≤ (applyEdgeCrops c l).cropRight ∧ (applyEdgeCrops c l).cropRight ≤ 200) ∧
    (0 ≤ (applyEdgeCrops c l).cropTop ∧ (applyEdgeCrops c l).cropTop ≤ 200) ∧
    (0 ≤ (applyEdgeCrops c l).cropBottom ∧
      (applyEdgeCrops c l).cropBottom ≤ 200) := by
  induction l generalizing c with
  | nil => exact ⟨hl, hr, ht, hb⟩
  | cons g rest ih =>
    obtain ⟨e, d⟩ := g
    cases e with
    | left => exact ih _ (jsRound_clamped_mem _) hr ht hb
    | right => exact ih _ hl (jsRound_clamped_mem _) ht hb
    | top => exact ih _ hl hr (jsRound_clamped_mem _) hb
    | bottom => exact ih _ hl hr ht (jsRound_clamped_mem _)

/-- Witness for `c4_edge_crops_bounded`: the default front state under the
two gestures of the counterexample keeps every edge inside [0, 200]. -/
theorem c4_edge_crops_bounded_witness :
    0 ≤ (applyEdgeCrops defaultFrontCrop
        [(CropEdge.left, -400), (CropEdge.right, -400)]).cropLeft ∧
      (applyEdgeCrops defaultFrontCrop
        [(CropEdge.left, -400), (CropEdge.right, -400)]).cropLeft ≤ 200 :=
  (c4_edge_crops_bounded defaultFrontCrop (by norm_num [defaultFrontCrop])
    (by norm_num [defaultFrontCrop]) (by norm_num [defaultFrontCrop])
    (by norm_num [defaultFrontCrop])
    [(CropEdge.left, -400), (CropEdge.right, -400)]).1

/-- Claim C8, counterexample.  The claim states that when the stored
snapshot is absent the error is logged and the colors stay at their
defaults.  The load effect does keep the defaults, but it logs nothing
at all in the absent case: the log list of the load is empty. -/
theorem c8_counterexample :
    (loadSavedDesign StoredSnapshot.absent defaultColors).1 = defaultColors ∧
      (loadSavedDesign StoredSnapshot.absent defaultColors).2 = [] :=
  ⟨rfl, rfl⟩

/-- Claim C8, amended.  The persistence touchpoint is a single flat
snapshot holding the color choices.  On load: an absent snapshot leaves
the colors unchanged with nothing logged; a snapshot that fails to parse
leaves the colors unchanged and logs one error; a parsed snapshot without
a colors field leaves the state unchanged; and loading what the
(spec-modelled) save wrote restores exactly the saved colors. -/
theorem c8_load_save_behavior :
    (∀ current : DesignColors, loadSavedDesign .absent current = (current, [])) ∧
    (∀ (raw : String) (current : DesignColors),
      loadSavedDesign (.corrupt raw) current =
        (current, [LogEntry.error "Error loading saved design:"])) ∧
    (∀ current : DesignColors, loadSavedDesign (.parsed none) current =
      (current, [])) ∧
    (∀ c current : DesignColors, loadSavedDesign (saveDesign c) current =
      (c, [])) :=
  ⟨fun _ => rfl, fun _ _ => rfl, fun _ => rfl, fun _ _ => rfl⟩

/-- Claim C3.  `handleScaleChange` clamps every input scale into
[20, 300] and keeps in-range values unchanged (the update is never
rejected), and the corner-scale pointer gesture always produces a
strictly positive scale, however far the pointer is dragged inward. -/
theorem c3_scale_clamped :
    (∀ (c : CropTransform) (s : ℚ),
      20 ≤ (handleScaleChange c s).scale ∧ (handleScaleChange c s).scale ≤ 300) ∧
    (∀ (c : CropTransform) (s : ℚ), 20 ≤ s → s ≤ 300 →
      (handleScaleChange c s).scale = s) ∧
    (∀ (ps : PointerState) (ev : PointerEventData) (r : WrapperRect),
      0 < scaleNewScale ps ev r) := by
  refine ⟨fun c s => ⟨le_max_left _ _, ?_⟩, fun c s h1 h2 => ?_, fun ps ev r => ?_⟩
  · exact max_le (by norm_num) (min_le_left _ _)
  · show max 20 (min 300 s) = s
    rw [min_eq_right h2, max_eq_right h1]
  · exact lt_of_lt_of_le (by norm_num : (0 : ℝ) < 0.02) (le_max_left _ _)

/-- Witness for `c3_scale_clamped`: the in-range scale 100 is stored
unchanged. -/
theorem c3_scale_clamped_witness :
    (handleScaleChange defaultFrontCrop 100).scale = 100 :=
  c3_scale_clamped.2.1 defaultFrontCrop 100 (by norm_num) (by norm_num)

/-- Claim C9.  The corner-scale gesture divides by
`Math.max(1, startDistance)`, which is always positive - so the ratio is
defined even when the pointer went down exactly on the wrapper center
(start distance 0, denominator 1) - and the resulting scale is always at
least 0.02. -/
theorem c9_scale_gesture_safe (ps : PointerState) (ev : PointerEventData)
    (r : WrapperRect) :
    (0 : ℝ) < max 1 (startDistFromCenter ps r) ∧
    0.02 ≤ scaleNewScale ps ev r ∧
    (ps.startClientX = centerX r → ps.startClientY = centerY r →
      max 1 (startDistFromCenter ps r) = 1) := by
  refine ⟨lt_of_lt_of_le one_pos (le_max_left _ _), le_max_left _ _, ?_⟩
  intro hx hy
  have h0 : startDistFromCenter ps r = 0 := by
    simp [startDistFromCenter, jsHypot, hx, hy]
  rw [h0]
  exact max_eq_left zero_le_one

/-- Witness for `c9_scale_gesture_safe` at a pointer-down exactly on the
wrapper center: the rect is centered at the origin and the start point is
the origin, so the clamped denominator is exactly 1. -/
theorem c9_scale_gesture_safe_witness :
    max 1 (startDistFromCenter
        ⟨true, some 0, GestureMode.scaleBR, 0, 0, 0, 0, 1, 0, ⟨0, 0, 0, 0⟩⟩
        ⟨-50, -50, 100, 100⟩) = 1 :=
  (c9_scale_gesture_safe
      ⟨true, some 0, GestureMode.scaleBR, 0, 0, 0, 0, 1, 0, ⟨0, 0, 0, 0⟩⟩
      ⟨0, 5, 5⟩ ⟨-50, -50, 100, 100⟩).2.2
    (by norm_num [centerX]) (by norm_num [centerY])

/-- Claim C7.  In rotate mode the gesture dispatch schedules exactly
`startRotation + (atan2 delta in degrees)` with no clamp - at a concrete
quarter-turn drag starting from rotation 135 the result is 225, outside
[-180, 180] - while the slider variant `handleImageRotationChange` clamps
its input into [-180, 180] and keeps in-range values unchanged. -/
theorem c7_rotation_gesture :
    (∀ (ps : PointerState) (ev : PointerEventData) (r : WrapperRect) (base : ℝ),
      onMoveUpdate { ps with mode := GestureMode.rotate } ev r base =
        TransformUpdate.rotation (ps.startRotation + deltaAngleDeg ps ev r)) ∧
    rotateNewRotation
        ⟨true, some 0, GestureMode.rotate, 1, 0, 0, 0, 1, 135, ⟨0, 0, 0, 0⟩⟩
        ⟨0, 0, 1⟩ ⟨-50, -50, 100, 100⟩ = 225 ∧
    (180 : ℝ) < rotateNewRotation
        ⟨true, some 0, GestureMode.rotate, 1, 0, 0, 0, 1, 135, ⟨0, 0, 0, 0⟩⟩
        ⟨0, 0, 1⟩ ⟨-50, -50, 100, 100⟩ ∧
    (∀ r : ℚ, -180 ≤ handleImageRotationChange r ∧
      handleImageRotationChange r ≤ 180) ∧
    (∀ r : ℚ, -180 ≤ r → r ≤ 180 → handleImageRotationChange r = r) := by
  have h225 : rotateNewRotation
      ⟨true, some 0, GestureMode.rotate, 1, 0, 0, 0, 1, 135, ⟨0, 0, 0, 0⟩⟩
      ⟨0, 0, 1⟩ ⟨-50, -50, 100, 100⟩ = 225 := by
    norm_num [rotateNewRotation, deltaAngleDeg, jsAtan2, centerX, centerY]
    field_simp
    ring
  refine ⟨fun ps ev r base => rfl, h225, by rw [h225]; norm_num,
    fun r => ⟨le_max_left _ _, max_le (by norm_num) (min_le_left _ _)⟩,
    fun r h1 h2 => ?_⟩
  show max (-180) (min 180 r) = r
  rw [min_eq_right h2, max_eq_right h1]

/-- Witness for `c7_rotation_gesture`: the in-range rotation 45 passes
through the slider clamp unchanged. -/
theorem c7_rotation_gesture_witness : handleImageRotationChange 45 = 45 :=
  c7_rotation_gesture.2.2.2.2 45 (by norm_num) (by norm_num)

/-- Claim C6.  For every region: with no assigned image the mesh gets the
region's flat base-color material (color = the body color, no texture
map); when applying the texture fails, the catch block assigns the same
flat material and emits exactly one warning log (nothing is retried - the
result carries a single log entry and no further load); and in the
separate-mesh variant the no-texture branch gives each region mesh the
flat body-color material.  The embedding is a total function, so no
failure escapes the material application. -/
theorem c6_fallback_material :
    (∀ (region : String) (outcome : LoadOutcome)
        (transform : Option TextureTransform) (colors : GarmentColors),
      applyRegionV1 region none outcome transform colors =
        (materialsBody colors, [])) ∧
    (∀ (region url err : String) (transform : Option TextureTransform)
        (colors : GarmentColors),
      applyRegionV1 region (some url) (.failed err) transform colors =
        (materialsBody colors,
          [LogEntry.warn ("Failed to apply " ++ region ++ " texture: " ++ err)])) ∧
    (∀ colors : GarmentColors, (materialsBody colors).map = none ∧
      (materialsBody colors).color = some colors.body) ∧
    (∀ colors : GarmentColors,
      v220BaseMaterial "front" colors = ⟨some colors.body, none, false⟩ ∧
      v220BaseMaterial "back" colors = ⟨some colors.body, none, false⟩ ∧
      v220BaseMaterial "leftsleeve" colors = ⟨some colors.body, none, false⟩ ∧
      v220BaseMaterial "rightsleeve" colors = ⟨some colors.body, none, false⟩) := by
  exact ⟨fun _ _ _ _ => rfl, fun _ _ _ _ _ => rfl, fun _ => ⟨rfl, rfl⟩,
    fun colors => ⟨rfl, rfl, rfl, rfl⟩⟩

theorem mergeO_none_right (a : Option PartialUpdate) : mergeO a none = a := by
  cases a <;> rfl

theorem mergePartial_assoc (a b c : PartialUpdate) :
    mergePartial (mergePartial a b) c = mergePartial a (mergePartial b c) := by
  obtain ⟨p1, s1, r1, c1⟩ := a
  obtain ⟨p2, s2, r2, c2⟩ := b
  obtain ⟨p3, s3, r3, c3⟩ := c
  simp only [mergePartial, PartialUpdate.mk.injEq]
  refine ⟨?_, ?_, ?_, ?_⟩ <;>
    first
      | (cases p3 <;> cases p2 <;> rfl)
      | (cases s3 <;> cases s2 <;> rfl)
      | (cases r3 <;> cases r2 <;> rfl)
      | (cases c3 <;> cases c2 <;> rfl)

theorem mergeO_assoc (a b c : Option PartialUpdate) :
    mergeO (mergeO a b) c = mergeO a (mergeO b c) := by
  cases a <;> cases b <;> cases c <;> simp [mergeO, mergePartial_assoc]

theorem mergeList_foldl (l : List PartialUpdate) (a : Option PartialUpdate) :
    l.foldl (fun acc p => mergeO acc (some p)) a = mergeO a (mergeList l) := by
  induction l generalizing a with
  | nil => simp [mergeList, mergeO_none_right]
  | cons p rest ih =>
    simp only [List.foldl_cons]
    rw [ih (mergeO a (some p))]
    have h1 : mergeList (p :: rest) = mergeO (some p) (mergeList rest) := by
      unfold mergeList
      simp only [List.foldl_cons]
      rw [ih (mergeO none (some p))]
      rfl
    rw [h1, mergeO_assoc]

theorem mergeList_append_one (l : List PartialUpdate) (p : PartialUpdate) :
    mergeList (l ++ [p]) = mergeO (mergeList l) (some p) := by
  unfold mergeList
  rw [List.foldl_append]
  simp only [List.foldl_cons, List.foldl_nil]

/-- The scheduler invariant: an outstanding pending partial always has an
outstanding animation frame, and committed updates merged with the pending
one always equal the merge of everything scheduled so far. -/
theorem sched_invariant (evs : List SchedEvent) (s : SchedState)
    (h1 : s.pending ≠ none → s.rafScheduled = true) :
    ((runSched evs s).pending ≠ none → (runSched evs s).rafScheduled = true) ∧
    mergeO (mergeList (runSched evs s).commits) (runSched evs s).pending =
      mergeO (mergeO (mergeList s.commits) s.pending)
        (mergeList (scheduledOf evs)) := by
  induction evs generalizing s with
  | nil =>
    refine ⟨h1, ?_⟩
    simp [runSched, scheduledOf, mergeList, mergeO_none_right]
  | cons e rest ih =>
    cases e with
    | schedule p =>
      have hrw : runSched (SchedEvent.schedule p :: rest) s =
          runSched rest (scheduleTransformUpdate p s) := rfl
      rw [hrw]
      obtain ⟨ha, hb⟩ := ih (scheduleTransformUpdate p s) (fun _ => rfl)
      refine ⟨ha, ?_⟩
      rw [hb]
      have hp : (scheduleTransformUpdate p s).pending =
          mergeO s.pending (some p) := by
        cases hsp : s.pending <;> simp [scheduleTransformUpdate, hsp, mergeO]
      have hc : (scheduleTransformUpdate p s).commits = s.commits := rfl
      rw [hp, hc]
      have hsch : scheduledOf (SchedEvent.schedule p :: rest) =
          p :: scheduledOf rest := rfl
      rw [hsch]
      have hm : mergeList (p :: scheduledOf rest) =
          mergeO (some p) (mergeList (scheduledOf rest)) := by
        unfold mergeList
        simp only [List.foldl_cons]
        rw [mergeList_foldl]
        rfl
      rw [hm, ← mergeO_assoc, ← mergeO_assoc]
    | frame =>
      have hrw : runSched (SchedEvent.frame :: rest) s =
          runSched rest (animationFrame s) := rfl
      rw [hrw]
      have hsch : scheduledOf (SchedEvent.frame :: rest) = scheduledOf rest := rfl
      rw [hsch]
      have h1f : (animationFrame s).pending ≠ none →
          (animationFrame s).rafScheduled = true := by
        by_cases hraf : s.rafScheduled = true
        · intro hps
          exact absurd (by simp [animationFrame, hraf]) hps
        · have hf : animationFrame s = s := by simp [animationFrame, hraf]
          rw [hf]
          exact h1
      obtain ⟨ha, hb⟩ := ih (animationFrame s) h1f
      refine ⟨ha, ?_⟩
      rw [hb]
      have hM : mergeO (mergeList (animationFrame s).commits)
          (animationFrame s).pending =
          mergeO (mergeList s.commits) s.pending := by
        by_cases hraf : s.rafScheduled = true
        · cases hsp : s.pending with
          | some p =>
            simp only [animationFrame, hraf, if_true, hsp]
            rw [mergeO_none_right, mergeList_append_one]
          | none =>
            simp only [animationFrame, hraf, if_true, hsp, List.append_nil]
        · have hf : animationFrame s = s := by
            simp [animationFrame, hraf]
          rw [hf]
      rw [hM]

/-- Claim C5.  `scheduleTransformUpdate` never commits by itself (it only
merges into the pending partial), each animation-frame callback commits at
most one update, and after the events of a gesture the pending frame - it
is never cancelled at pointer-up - delivers everything: once the
outstanding frame fires, nothing remains pending and the merged committed
updates equal the merge of every partial the gesture scheduled, so the
state current at pointer-up always reaches the transform callback. -/
theorem c5_frame_coalesced_delivery :
    (∀ (p : PartialUpdate) (s : SchedState),
      (scheduleTransformUpdate p s).commits = s.commits) ∧
    (∀ s : SchedState,
      (animationFrame s).commits.length ≤ s.commits.length + 1) ∧
    (∀ evs : List SchedEvent,
      (animationFrame (runSched evs initialSched)).pending = none) ∧
    (∀ evs : List SchedEvent,
      mergeList ((animationFrame (runSched evs initialSched)).commits) =
        mergeList (scheduledOf evs)) := by
  have hinit : (initialSched.pending ≠ none → initialSched.rafScheduled = true) :=
    fun h => absurd rfl h
  refine ⟨fun p s => rfl, fun s => ?_, fun evs => ?_, fun evs => ?_⟩
  · by_cases hraf : s.rafScheduled = true
    · cases hsp : s.pending <;> simp [animationFrame, hraf, hsp]
    · simp [animationFrame, hraf]
  · obtain ⟨ha, hb⟩ := sched_invariant evs initialSched hinit
    by_cases hraf : (runSched evs initialSched).rafScheduled = true
    · simp [animationFrame, hraf]
    · have hpn : (runSched evs initialSched).pending = none := by
        by_contra hcon
        exact hraf (ha hcon)
      simp [animationFrame, hraf, hpn]
  · obtain ⟨ha, hb⟩ := sched_invariant evs initialSched hinit
    have hbase : mergeO (mergeO (mergeList initialSched.commits)
        initialSched.pending) (mergeList (scheduledOf evs)) =
        mergeList (scheduledOf evs) := rfl
    rw [hbase] at hb
    by_cases hraf : (runSched evs initialSched).rafScheduled = true
    · cases hsp : (runSched evs initialSched).pending with
      | some p =>
        rw [hsp] at hb
        simp only [animationFrame, hraf, if_true, hsp]
        rw [mergeList_append_one]
        exact hb
      | none =>
        rw [hsp, mergeO_none_right] at hb
        simp only [animationFrame, hraf, if_true, hsp, List.append_nil]
        exact hb
    · have hpn : (runSched evs initialSched).pending = none := by
        by_contra hcon
        exact hraf (ha hcon)
      have hf : animationFrame (runSched evs initialSched) =
          runSched evs initialSched := by
        simp [animationFrame, hraf]
      rw [hpn, mergeO_none_right] at hb
      rw [hf]
      exact hb

/-- Any event run over a locked image from an inactive pointer state keeps
the pointer state inactive and the image untouched. -/
theorem locked_run_aux (r : WrapperRect) (base : ℝ) (img : PlacedImageState)
    (hlock : img.locked = true) :
    ∀ (evs : List PointerGestureEvent) (ps : PointerState),
      ps.active = false →
      (runGestures r base evs (ps, img)).2 = img ∧
      (runGestures r base evs (ps, img)).1.active = false := by
  intro evs
  induction evs with
  | nil => exact fun ps h => ⟨rfl, h⟩
  | cons e rest ih =>
    intro ps h
    cases e with
    | down mode ev =>
      have hs : startPointer img ev mode ps base = ps := by
        simp [startPointer, hlock]
      have hrw : runGestures r base (PointerGestureEvent.down mode ev :: rest)
          (ps, img) =
          runGestures r base rest (startPointer img ev mode ps base, img) := rfl
      rw [hrw, hs]
      exact ih ps h
    | moved ev =>
      have hg : onMoveGuarded ps ev r base = none := by
        simp [onMoveGuarded, h]
      have hrw : runGestures r base (PointerGestureEvent.moved ev :: rest)
          (ps, img) = runGestures r base rest
            (match onMoveGuarded ps ev r base with
              | some u => (ps, applyUpdate img u)
              | none => (ps, img)) := rfl
      rw [hrw, hg]
      exact ih ps h
    | up ev =>
      have hrw : runGestures r base (PointerGestureEvent.up ev :: rest)
          (ps, img) = runGestures r base rest (onUp ps, img) := rfl
      rw [hrw]
      exact ih (onUp ps) rfl

/-- Claim C10.  When the placed image is locked, `startPointer` returns
before activating any gesture, so over any sequence of pointer-down,
pointer-move and pointer-up events the widget never commits a transform
update: the image's position, scale, rotation and crop data are exactly
what they were. -/
theorem c10_locked_image_unchanged (r : WrapperRect) (base : ℝ)
    (evs : List PointerGestureEvent) (img : PlacedImageState)
    (hlock : img.locked = true) :
    (runGestures r base evs (initialPointerState, img)).2 = img :=
  (locked_run_aux r base img hlock evs initialPointerState rfl).1

/-- Witness for `c10_locked_image_unchanged`: a locked image survives a
full down-move-up gesture unchanged. -/
theorem c10_locked_image_unchanged_witness :
    (runGestures ⟨0, 0, 100, 100⟩ 200
        [PointerGestureEvent.down GestureMode.move ⟨0, 10, 10⟩,
         PointerGestureEvent.moved ⟨0, 40, 40⟩,
         PointerGestureEvent.up ⟨0, 40, 40⟩]
        (initialPointerState, ⟨5, 6, 1, 0, none, true⟩)).2 =
      ⟨5, 6, 1, 0, none, true⟩ :=
  c10_locked_image_unchanged _ _ _ _ rfl

end TShirt
